import Mathlib

/-
Shallow embedding of the ARIS risk-scoring engine of `src/app.py`
(functions `calculate_aris_data` and the decision logic inside
`explain_risk`).  Real-valued sensor readings are modelled as rationals;
the Python `round` builtin (round-half-to-even on non-negative and negative values
alike) is modelled by `pyRound`, and the Python `int(...)` truncation toward
zero by `int_trunc`.  The classifier (`model.predict_proba`) is opaque to
the engine, so it is modelled by its observable outcome: the model object
being `None`, the prediction call raising, or a returned probability.
-/

/-- The Python builtin `round` applied on an exact rational: round half to even. -/
def pyRound (q : ℚ) : ℤ :=
  if q - (⌊q⌋ : ℚ) < 1/2 then ⌊q⌋
  else if 1/2 < q - (⌊q⌋ : ℚ) then ⌊q⌋ + 1
  else if ⌊q⌋ % 2 = 0 then ⌊q⌋ else ⌊q⌋ + 1

/-- The Python `int(...)` conversion applied to a real value: truncation toward zero. -/
def int_trunc (q : ℚ) : ℤ :=
  if 0 ≤ q then ⌊q⌋ else ⌈q⌉

lemma pyRound_cases (q : ℚ) : pyRound q = ⌊q⌋ ∨ pyRound q = ⌊q⌋ + 1 := by
  unfold pyRound
  split_ifs <;> simp

lemma le_pyRound (n : ℤ) (q : ℚ) (h : (n : ℚ) ≤ q) : n ≤ pyRound q := by
  have hf : n ≤ ⌊q⌋ := Int.le_floor.mpr h
  rcases pyRound_cases q with h1 | h1 <;> omega

lemma pyRound_le (n : ℤ) (q : ℚ) (h : q ≤ (n : ℚ)) : pyRound q ≤ n := by
  have hfl : ⌊q⌋ ≤ n := by
    have := Int.floor_le_floor h
    rwa [Int.floor_intCast] at this
  unfold pyRound
  split_ifs with h1 h2 h3
  · exact hfl
  · -- here 1/2 < q - ⌊q⌋, so ⌊q⌋ < n in ℚ, hence ⌊q⌋ + 1 ≤ n
    have hq : (⌊q⌋ : ℚ) + 1/2 < q := by linarith
    have : (⌊q⌋ : ℚ) < (n : ℚ) := by linarith
    have : ⌊q⌋ < n := by exact_mod_cast this
    omega
  · exact hfl
  · have hq : (⌊q⌋ : ℚ) + 1/2 ≤ q := by linarith
    have : (⌊q⌋ : ℚ) < (n : ℚ) := by linarith
    have : ⌊q⌋ < n := by exact_mod_cast this
    omega

lemma pyRound_nonneg (q : ℚ) (h : 0 ≤ q) : 0 ≤ pyRound q :=
  le_pyRound 0 q (by exact_mod_cast h)

/-- Key arithmetic fact behind the proportional-rescaling branch: when two
rationals sum to exactly 100, their half-to-even roundings sum to exactly
100 as well (because the two floors sum to 99 in the tied case, one of
them is even and the other odd). -/
lemma pyRound_add_eq_100 (x y : ℚ) (hxy : x + y = 100) :
    pyRound x + pyRound y = 100 := by
  have hx0 : (0 : ℚ) ≤ x - ⌊x⌋ := by have := Int.floor_le x; linarith
  have hx1 : x - ⌊x⌋ < 1 := by have := Int.lt_floor_add_one x; linarith
  have hy0 : (0 : ℚ) ≤ y - ⌊y⌋ := by have := Int.floor_le y; linarith
  have hy1 : y - ⌊y⌋ < 1 := by have := Int.lt_floor_add_one y; linarith
  have hk : ((100 - ⌊x⌋ - ⌊y⌋ : ℤ) : ℚ) = (x - ⌊x⌋) + (y - ⌊y⌋) := by
    push_cast
    linarith
  have hk0 : (0 : ℤ) ≤ 100 - ⌊x⌋ - ⌊y⌋ := by
    have : (0 : ℚ) ≤ ((100 - ⌊x⌋ - ⌊y⌋ : ℤ) : ℚ) := by rw [hk]; linarith
    exact_mod_cast this
  have hk2 : (100 - ⌊x⌋ - ⌊y⌋ : ℤ) < 2 := by
    have : ((100 - ⌊x⌋ - ⌊y⌋ : ℤ) : ℚ) < 2 := by rw [hk]; linarith
    exact_mod_cast this
  unfold pyRound
  rcases (by omega : (100 - ⌊x⌋ - ⌊y⌋ : ℤ) = 0 ∨ (100 - ⌊x⌋ - ⌊y⌋ : ℤ) = 1) with h0 | h1
  · -- both fractional parts are zero
    have hfr : (x - ⌊x⌋) + (y - ⌊y⌋) = 0 := by
      rw [← hk, h0]; norm_num
    have hfx : x - ⌊x⌋ = 0 := by linarith
    have hfy : y - ⌊y⌋ = 0 := by linarith
    rw [if_pos (by rw [hfx]; norm_num), if_pos (by rw [hfy]; norm_num)]
    omega
  · -- fractional parts sum to one
    have hfr : (x - ⌊x⌋) + (y - ⌊y⌋) = 1 := by
      rw [← hk, h1]; norm_num
    have hab : ⌊x⌋ + ⌊y⌋ = 99 := by omega
    rcases lt_trichotomy (x - ⌊x⌋) (1/2 : ℚ) with hlt | heq | hgt
    · have hygt : (1/2 : ℚ) < y - ⌊y⌋ := by linarith
      have hny : ¬(y - (⌊y⌋ : ℚ) < 1/2) := by linarith
      rw [if_pos hlt, if_neg hny, if_pos hygt]
      omega
    · have hyeq : y - (⌊y⌋ : ℚ) = 1/2 := by linarith
      have hnx1 : ¬(x - (⌊x⌋ : ℚ) < 1/2) := by linarith
      have hnx2 : ¬((1/2 : ℚ) < x - (⌊x⌋ : ℚ)) := by linarith
      have hny1 : ¬(y - (⌊y⌋ : ℚ) < 1/2) := by linarith
      have hny2 : ¬((1/2 : ℚ) < y - (⌊y⌋ : ℚ)) := by linarith
      rw [if_neg hnx1, if_neg hnx2, if_neg hny1, if_neg hny2]
      split_ifs <;> omega
    · have hylt : y - (⌊y⌋ : ℚ) < 1/2 := by linarith
      have hnx : ¬(x - (⌊x⌋ : ℚ) < 1/2) := by linarith
      rw [if_neg hnx, if_pos hgt, if_pos hylt]
      omega

lemma int_trunc_nonneg (q : ℚ) (h : 0 ≤ q) : 0 ≤ int_trunc q := by
  unfold int_trunc
  rw [if_pos h]
  exact Int.floor_nonneg.mpr h

lemma int_trunc_le (n : ℤ) (q : ℚ) (h0 : 0 ≤ q) (h : q ≤ (n : ℚ)) :
    int_trunc q ≤ n := by
  unfold int_trunc
  rw [if_pos h0]
  have := Int.floor_le_floor h
  rwa [Int.floor_intCast] at this

/-- Observable outcome of the classifier interaction in
`calculate_aris_data` (src/app.py lines 31-40): the model object is `None`
(load failed), the `model.predict_proba` call raised, or the call returned
a failure probability `p = predict_proba(new_data)[0][1]`. -/
inductive ClassifierOutcome where
  | unavailable : ClassifierOutcome
  | raises : ClassifierOutcome
  | prob (p : ℚ) : ClassifierOutcome
deriving DecidableEq

/-- Normalized bearing temperature, src/app.py line 44:
`temp_normalized = (temp - 30) / 55`. -/
def temp_normalized (temp : ℚ) : ℚ := (temp - 30) / 55

/-- Normalized vibration, src/app.py line 45:
`vib_normalized = (vibration - 1) / 24`. -/
def vib_normalized (vibration : ℚ) : ℚ := (vibration - 1) / 24

/-- Heuristic augmentation points `extra_risk_points`, src/app.py lines
47-74, accumulated in the same order as the Python `+=` chain (the flow
branch is an `if`/`elif` pair). -/
def extra_risk_points (vibration temp flow_rate lube_health stress_in rul_in : ℚ) : ℚ :=
  let tn := temp_normalized temp
  let vn := vib_normalized vibration
  let e0 : ℚ := 0
  let e1 := if tn > 3/10 then e0 + (tn - 3/10) * 150 else e0
  let e2 := if vn > 3/10 then e1 + (vn - 3/10) * 150 else e1
  let e3 := if flow_rate < 7/10 then e2 + (7/10 - flow_rate) * 50
            else if flow_rate > 11/10 then e2 + (flow_rate - 11/10) * 75
            else e2
  let e4 := if lube_health < 4/10 then e3 + (4/10 - lube_health) * 100 else e3
  let e5 := if stress_in > 6/10 then e4 + (stress_in - 6/10) * 80 else e4
  if rul_in < 3/10 then e5 + (3/10 - rul_in) * 120 else e5

/-- Corrosion influence, src/app.py lines 81 and 84:
`0.45 * ((corrosion_score - 0.1) / 0.9)`. -/
def corrosion_influence (corrosion_score : ℚ) : ℚ :=
  45/100 * ((corrosion_score - 1/10) / (9/10))

/-- Rate influence, src/app.py lines 82 and 85:
`0.40 * (change_rate / 1.0)`. -/
def rate_influence (change_rate : ℚ) : ℚ :=
  40/100 * (change_rate / 1)

/-- Temperature/vibration influence, src/app.py line 86:
`0.15 * (temp_normalized + vib_normalized) / 2`. -/
def temp_vib_influence (vibration temp : ℚ) : ℚ :=
  15/100 * (temp_normalized temp + vib_normalized vibration) / 2

/-- Total dynamic influence, src/app.py line 88. -/
def total_dynamic_influence (vibration temp corrosion_score change_rate : ℚ) : ℚ :=
  corrosion_influence corrosion_score + rate_influence change_rate
    + temp_vib_influence vibration temp

/-- Contribution shares `(corrosion_contribution, rate_contribution)`,
src/app.py lines 90-100: guarded division into percentages when the total
dynamic influence exceeds 0.01, fixed defaults (45, 40) otherwise, then a
proportional rescale when the rounded percentages sum above 100. -/
def contributions (vibration temp corrosion_score change_rate : ℚ) : ℤ × ℤ :=
  let total := total_dynamic_influence vibration temp corrosion_score change_rate
  let cr : ℤ × ℤ :=
    if total > 1/100 then
      (pyRound (corrosion_influence corrosion_score / total * 100),
       pyRound (rate_influence change_rate / total * 100))
    else (45, 40)
  let total_contribution := cr.1 + cr.2
  if total_contribution > 100 then
    (pyRound ((cr.1 : ℚ) * 100 / (total_contribution : ℚ)),
     pyRound ((cr.2 : ℚ) * 100 / (total_contribution : ℚ)))
  else cr

/-- The ARIS engine `calculate_aris_data`, src/app.py lines 28-102,
returning `(risk_index, corrosion_contribution, rate_contribution)`.
The `model is None` check and the `try`/`except` around `predict_proba`
both return `(0, 0, 0)`; on a returned probability `p` the code computes
`round(p * 120)`, adds the heuristic points, clamps with `min(100, _)`
and truncates with `int(...)`. -/
def calculate_aris_data (outcome : ClassifierOutcome)
    (vibration temp corrosion_score change_rate flow_rate lube_health stress_in rul_in : ℚ) :
    ℤ × ℤ × ℤ :=
  match outcome with
  | .unavailable => (0, 0, 0)
  | .raises => (0, 0, 0)
  | .prob failure_prob =>
    let risk_index0 : ℤ := pyRound (failure_prob * 120)
    let extra := extra_risk_points vibration temp flow_rate lube_health stress_in rul_in
    let risk_index : ℤ := int_trunc (min 100 ((risk_index0 : ℚ) + extra))
    let shares := contributions vibration temp corrosion_score change_rate
    (risk_index, shares.1, shares.2)

example :
    calculate_aris_data .unavailable 7 55 (2/10) (15/100) 1 (8/10) (4/10) (7/10)
      = (0, 0, 0) := by with_unfolding_all rfl

example :
    calculate_aris_data (.prob (1/10)) 7 55 (2/10) (15/100) 1 (8/10) (4/10) (7/10)
      = (35, 31, 37) := by with_unfolding_all rfl

/-- Severity tier shown by `explain_risk` (the Arabic labels of
src/app.py lines 147-150: safe, low, medium, high, imminent failure). -/
inductive Tier where
  | safe : Tier
  | low : Tier
  | medium : Tier
  | high : Tier
  | imminentFailure : Tier
deriving DecidableEq

/-- Tier selection `delta_text`, src/app.py lines 147-150: a chain of
strict upper-bound comparisons on the risk index. -/
def tier_of_index (risk_index : ℤ) : Tier :=
  if risk_index < 20 then .safe
  else if risk_index < 35 then .low
  else if risk_index < 50 then .medium
  else if risk_index < 80 then .high
  else .imminentFailure

/-- Tier implied by the recommendation branches, src/app.py lines 200-220:
`if risk_index < 20 ... elif 20 <= risk_index < 35 ... elif 35 <= risk_index < 50
... elif 50 <= risk_index < 80 ... else`. -/
def recommendation_tier (risk_index : ℤ) : Tier :=
  if risk_index < 20 then .safe
  else if 20 ≤ risk_index ∧ risk_index < 35 then .low
  else if 35 ≤ risk_index ∧ risk_index < 50 then .medium
  else if 50 ≤ risk_index ∧ risk_index < 80 then .high
  else .imminentFailure

/-- Modelled from the spec wording of the tier bands, for comparison with
the code-side chains: index in [0,20) is Safe, [20,35) Low, [35,50)
Medium, [50,80) High and [80,100] ImminentFailure. -/
def spec_band_tier (risk_index : ℤ) : Tier :=
  if 0 ≤ risk_index ∧ risk_index < 20 then .safe
  else if 20 ≤ risk_index ∧ risk_index < 35 then .low
  else if 35 ≤ risk_index ∧ risk_index < 50 then .medium
  else if 50 ≤ risk_index ∧ risk_index < 80 then .high
  else if 80 ≤ risk_index ∧ risk_index ≤ 100 then .imminentFailure
  else .safe

/-- Mechanical (vibration/temperature) contribution share
`vib_temp_contrib`, src/app.py lines 226-227: the remainder
`100 - corr_contrib - rate_contrib`, floored at 0. -/
def vib_temp_contrib (corr_contrib rate_contrib : ℤ) : ℤ :=
  let v := 100 - corr_contrib - rate_contrib
  if v < 0 then 0 else v

/-- Categories of the XAI dominant-cause selection of src/app.py
lines 234-239. -/
inductive Cause where
  | corrosion : Cause
  | mechanical : Cause
  | rate : Cause
deriving DecidableEq

/-- Dominant-cause selection, src/app.py lines 234-239: an `if`/`elif`
chain over the three shares, in the order corrosion, mechanical
(vibration/temperature), rate of degradation. -/
def dominant_cause (corr_contrib rate_contrib : ℤ) : Cause :=
  let m := vib_temp_contrib corr_contrib rate_contrib
  if corr_contrib ≥ m ∧ corr_contrib ≥ rate_contrib then .corrosion
  else if m ≥ corr_contrib ∧ m ≥ rate_contrib then .mechanical
  else .rate

/-- Modelled from the spec wording of the dominant factor: the category
with the strictly largest share, ties broken in the fixed precedence order
corrosion, then mechanical, then rate. -/
def spec_dominant_cause (c m r : ℤ) : Cause :=
  if c ≥ m ∧ c ≥ r then .corrosion
  else if m > c ∧ m ≥ r then .mechanical
  else .rate

/-- Subordinate threshold alerts of src/app.py lines 247-257, each
carrying the numeric value it quotes in its message. -/
inductive Alert where
  | lowFlow (value : ℚ) : Alert
  | highFlow (value : ℚ) : Alert
  | lowLube (value : ℚ) : Alert
  | highStress (value : ℚ) : Alert
  | lowRul (value : ℚ) : Alert
deriving DecidableEq

/-- The `messages` list built by src/app.py lines 247-257, in source
order (the two flow checks are independent `if` statements there). -/
def subordinate_alerts (flow_rate lube_health stress_in rul_in : ℚ) : List Alert :=
  (if flow_rate < 7/10 then [Alert.lowFlow flow_rate] else [])
  ++ (if flow_rate > 11/10 then [Alert.highFlow flow_rate] else [])
  ++ (if lube_health < 4/10 then [Alert.lowLube lube_health] else [])
  ++ (if stress_in > 6/10 then [Alert.highStress stress_in] else [])
  ++ (if rul_in < 3/10 then [Alert.lowRul rul_in] else [])

/-- Result of the subordinate-alert section, src/app.py lines 259-263:
the triggered alerts when `messages` is nonempty, otherwise the explicit
"no additional mechanical/operational concerns" message. -/
inductive AlertReport where
  | alerts (triggered : List Alert) : AlertReport
  | noConcerns : AlertReport
deriving DecidableEq

/-- Alert-section output, src/app.py lines 259-263. -/
def alert_report (flow_rate lube_health stress_in rul_in : ℚ) : AlertReport :=
  let messages := subordinate_alerts flow_rate lube_health stress_in rul_in
  if messages = [] then .noConcerns else .alerts messages

example : alert_report 1 (8/10) (4/10) (7/10) = .noConcerns := by
  with_unfolding_all rfl

example : alert_report (6/10) (8/10) (4/10) (7/10)
    = .alerts [.lowFlow (6/10)] := by with_unfolding_all rfl

/-- Temperature term of the heuristic augmentation (src/app.py lines 48-49). -/
def temp_term (temp : ℚ) : ℚ :=
  if temp_normalized temp > 3/10 then (temp_normalized temp - 3/10) * 150 else 0

/-- Vibration term of the heuristic augmentation (src/app.py lines 50-51). -/
def vib_term (vibration : ℚ) : ℚ :=
  if vib_normalized vibration > 3/10 then (vib_normalized vibration - 3/10) * 150 else 0

/-- Flow-rate term of the heuristic augmentation (src/app.py lines 59-62). -/
def flow_term (flow_rate : ℚ) : ℚ :=
  if flow_rate < 7/10 then (7/10 - flow_rate) * 50
  else if flow_rate > 11/10 then (flow_rate - 11/10) * 75
  else 0

/-- Lubrication term of the heuristic augmentation (src/app.py lines 65-66). -/
def lube_term (lube_health : ℚ) : ℚ :=
  if lube_health < 4/10 then (4/10 - lube_health) * 100 else 0

/-- Stress term of the heuristic augmentation (src/app.py lines 69-70). -/
def stress_term (stress_in : ℚ) : ℚ :=
  if stress_in > 6/10 then (stress_in - 6/10) * 80 else 0

/-- Remaining-useful-life term of the heuristic augmentation
(src/app.py lines 73-74). -/
def rul_term (rul_in : ℚ) : ℚ :=
  if rul_in < 3/10 then (3/10 - rul_in) * 120 else 0

lemma ite_add_extract (c : Prop) [Decidable c] (e x : ℚ) :
    (if c then e + x else e) = e + (if c then x else 0) := by
  split_ifs <;> ring

lemma ite_add_extract3 (c1 c2 : Prop) [Decidable c1] [Decidable c2] (e x y : ℚ) :
    (if c1 then e + x else if c2 then e + y else e)
      = e + (if c1 then x else if c2 then y else 0) := by
  split_ifs <;> ring

lemma extra_risk_points_eq (vibration temp flow_rate lube_health stress_in rul_in : ℚ) :
    extra_risk_points vibration temp flow_rate lube_health stress_in rul_in
      = temp_term temp + vib_term vibration + flow_term flow_rate
        + lube_term lube_health + stress_term stress_in + rul_term rul_in := by
  simp only [extra_risk_points]
  rw [ite_add_extract, ite_add_extract, ite_add_extract, ite_add_extract3,
    ite_add_extract, ite_add_extract]
  simp only [temp_term, vib_term, flow_term, lube_term, stress_term, rul_term]
  ring

lemma temp_term_nonneg (temp : ℚ) : 0 ≤ temp_term temp := by
  unfold temp_term
  split_ifs with h
  · have h1 : (0 : ℚ) ≤ temp_normalized temp - 3/10 := by linarith
    have := mul_nonneg h1 (by norm_num : (0:ℚ) ≤ 150)
    linarith
  · exact le_refl 0

lemma vib_term_nonneg (vibration : ℚ) : 0 ≤ vib_term vibration := by
  unfold vib_term
  split_ifs with h
  · have h1 : (0 : ℚ) ≤ vib_normalized vibration - 3/10 := by linarith
    have := mul_nonneg h1 (by norm_num : (0:ℚ) ≤ 150)
    linarith
  · exact le_refl 0

lemma flow_term_nonneg (flow_rate : ℚ) : 0 ≤ flow_term flow_rate := by
  unfold flow_term
  split_ifs with h1 h2
  · have h : (0 : ℚ) ≤ 7/10 - flow_rate := by linarith
    have := mul_nonneg h (by norm_num : (0:ℚ) ≤ 50)
    linarith
  · have h : (0 : ℚ) ≤ flow_rate - 11/10 := by linarith
    have := mul_nonneg h (by norm_num : (0:ℚ) ≤ 75)
    linarith
  · exact le_refl 0

lemma lube_term_nonneg (lube_health : ℚ) : 0 ≤ lube_term lube_health := by
  unfold lube_term
  split_ifs with h
  · have h1 : (0 : ℚ) ≤ 4/10 - lube_health := by linarith
    have := mul_nonneg h1 (by norm_num : (0:ℚ) ≤ 100)
    linarith
  · exact le_refl 0

lemma stress_term_nonneg (stress_in : ℚ) : 0 ≤ stress_term stress_in := by
  unfold stress_term
  split_ifs with h
  · have h1 : (0 : ℚ) ≤ stress_in - 6/10 := by linarith
    have := mul_nonneg h1 (by norm_num : (0:ℚ) ≤ 80)
    linarith
  · exact le_refl 0

lemma rul_term_nonneg (rul_in : ℚ) : 0 ≤ rul_term rul_in := by
  unfold rul_term
  split_ifs with h
  · have h1 : (0 : ℚ) ≤ 3/10 - rul_in := by linarith
    have := mul_nonneg h1 (by norm_num : (0:ℚ) ≤ 120)
    linarith
  · exact le_refl 0

lemma extra_risk_points_nonneg (vibration temp flow_rate lube_health stress_in rul_in : ℚ) :
    0 ≤ extra_risk_points vibration temp flow_rate lube_health stress_in rul_in := by
  rw [extra_risk_points_eq]
  have h1 := temp_term_nonneg temp
  have h2 := vib_term_nonneg vibration
  have h3 := flow_term_nonneg flow_rate
  have h4 := lube_term_nonneg lube_health
  have h5 := stress_term_nonneg stress_in
  have h6 := rul_term_nonneg rul_in
  linarith

lemma corrosion_influence_nonneg (c : ℚ) (hc : 1/10 ≤ c) :
    0 ≤ corrosion_influence c := by
  unfold corrosion_influence
  have h1 : (0 : ℚ) ≤ c - 1/10 := by linarith
  have h2 : (0 : ℚ) ≤ (c - 1/10) / (9/10) := by
    apply div_nonneg h1
    norm_num
  have := mul_nonneg (by norm_num : (0:ℚ) ≤ 45/100) h2
  linarith

lemma rate_influence_nonneg (r : ℚ) (hr : 0 ≤ r) :
    0 ≤ rate_influence r := by
  unfold rate_influence
  have h2 : (0 : ℚ) ≤ r / 1 := by
    apply div_nonneg hr
    norm_num
  have := mul_nonneg (by norm_num : (0:ℚ) ≤ 40/100) h2
  linarith

lemma temp_vib_influence_nonneg (v t : ℚ) (hv : 1 ≤ v) (ht : 30 ≤ t) :
    0 ≤ temp_vib_influence v t := by
  unfold temp_vib_influence temp_normalized vib_normalized
  have h1 : (0 : ℚ) ≤ (t - 30) / 55 := by
    apply div_nonneg (by linarith)
    norm_num
  have h2 : (0 : ℚ) ≤ (v - 1) / 24 := by
    apply div_nonneg (by linarith)
    norm_num
  have := mul_nonneg (by norm_num : (0:ℚ) ≤ 15/100) (by linarith : (0:ℚ) ≤ (t - 30) / 55 + (v - 1) / 24)
  have h3 := div_nonneg this (by norm_num : (0:ℚ) ≤ 2)
  linarith [h3]

lemma round_share_bounds (infl total : ℚ) (h0 : 0 ≤ infl) (hle : infl ≤ total)
    (hpos : 0 < total) :
    0 ≤ pyRound (infl / total * 100) ∧ pyRound (infl / total * 100) ≤ 100 := by
  have hd0 : 0 ≤ infl / total := div_nonneg h0 (le_of_lt hpos)
  have hd1 : infl / total ≤ 1 := (div_le_one hpos).mpr hle
  exact ⟨le_pyRound 0 _ (by push_cast; nlinarith),
    pyRound_le 100 _ (by push_cast; nlinarith)⟩

lemma rescale_bounds (c0 r0 : ℤ) (hc0 : 0 ≤ c0) (hr0 : 0 ≤ r0) (hgt : c0 + r0 > 100) :
    0 ≤ pyRound ((c0 : ℚ) * 100 / ((c0 + r0 : ℤ) : ℚ)) ∧
    pyRound ((c0 : ℚ) * 100 / ((c0 + r0 : ℤ) : ℚ)) ≤ 100 ∧
    0 ≤ pyRound ((r0 : ℚ) * 100 / ((c0 + r0 : ℤ) : ℚ)) ∧
    pyRound ((r0 : ℚ) * 100 / ((c0 + r0 : ℤ) : ℚ)) ≤ 100 ∧
    pyRound ((c0 : ℚ) * 100 / ((c0 + r0 : ℤ) : ℚ))
      + pyRound ((r0 : ℚ) * 100 / ((c0 + r0 : ℤ) : ℚ)) = 100 := by
  have hspos : (0 : ℚ) < ((c0 + r0 : ℤ) : ℚ) := by
    have h : (0 : ℤ) < c0 + r0 := by omega
    exact_mod_cast h
  have hcast : ((c0 + r0 : ℤ) : ℚ) = (c0 : ℚ) + (r0 : ℚ) := by push_cast; ring
  have hc0q : (0 : ℚ) ≤ (c0 : ℚ) := by exact_mod_cast hc0
  have hr0q : (0 : ℚ) ≤ (r0 : ℚ) := by exact_mod_cast hr0
  have hx0 : (0 : ℚ) ≤ (c0 : ℚ) * 100 / ((c0 + r0 : ℤ) : ℚ) :=
    div_nonneg (by nlinarith) (le_of_lt hspos)
  have hy0 : (0 : ℚ) ≤ (r0 : ℚ) * 100 / ((c0 + r0 : ℤ) : ℚ) :=
    div_nonneg (by nlinarith) (le_of_lt hspos)
  have hx1 : (c0 : ℚ) * 100 / ((c0 + r0 : ℤ) : ℚ) ≤ 100 := by
    rw [div_le_iff₀ hspos, hcast]
    nlinarith
  have hy1 : (r0 : ℚ) * 100 / ((c0 + r0 : ℤ) : ℚ) ≤ 100 := by
    rw [div_le_iff₀ hspos, hcast]
    nlinarith
  have hxy : (c0 : ℚ) * 100 / ((c0 + r0 : ℤ) : ℚ)
      + (r0 : ℚ) * 100 / ((c0 + r0 : ℤ) : ℚ) = 100 := by
    rw [div_add_div_same, div_eq_iff (ne_of_gt hspos), hcast]
    ring
  exact ⟨le_pyRound 0 _ (by simpa using hx0), pyRound_le 100 _ (by simpa using hx1),
    le_pyRound 0 _ (by simpa using hy0), pyRound_le 100 _ (by simpa using hy1),
    pyRound_add_eq_100 _ _ hxy⟩

/-- Bounds on the pair returned by `contributions`: each rounded share is
in [0, 100] and the pair sums to at most 100 (exactly 100 after the
rescaling branch). -/
lemma contributions_bounds (v t c r : ℚ) (hv : 1 ≤ v) (ht : 30 ≤ t)
    (hc : 1/10 ≤ c) (hr : 0 ≤ r) :
    0 ≤ (contributions v t c r).1 ∧ (contributions v t c r).1 ≤ 100 ∧
    0 ≤ (contributions v t c r).2 ∧ (contributions v t c r).2 ≤ 100 ∧
    (contributions v t c r).1 + (contributions v t c r).2 ≤ 100 := by
  have hci := corrosion_influence_nonneg c hc
  have hri := rate_influence_nonneg r hr
  have htv := temp_vib_influence_nonneg v t hv ht
  simp only [contributions]
  split_ifs with h1 h2 h3
  · -- dynamic branch, then rescaling branch
    dsimp only at h2 ⊢
    set total := total_dynamic_influence v t c r with htot_def
    have htpos : (0 : ℚ) < total := lt_trans (by norm_num) h1
    have hcle : corrosion_influence c ≤ total := by
      rw [htot_def]; unfold total_dynamic_influence; linarith
    have hrle : rate_influence r ≤ total := by
      rw [htot_def]; unfold total_dynamic_influence; linarith
    have hcb := round_share_bounds (corrosion_influence c) total hci hcle htpos
    have hrb := round_share_bounds (rate_influence r) total hri hrle htpos
    set c0 := pyRound (corrosion_influence c / total * 100) with hc0_def
    set r0 := pyRound (rate_influence r / total * 100) with hr0_def
    have hres := rescale_bounds c0 r0 hcb.1 hrb.1 h2
    exact ⟨hres.1, hres.2.1, hres.2.2.1, hres.2.2.2.1, by omega⟩
  · -- dynamic branch, no rescaling: the raw rounded shares stand
    set total := total_dynamic_influence v t c r with htot_def
    have htpos : (0 : ℚ) < total := lt_trans (by norm_num) h1
    have hcle : corrosion_influence c ≤ total := by
      rw [htot_def]; unfold total_dynamic_influence; linarith
    have hrle : rate_influence r ≤ total := by
      rw [htot_def]; unfold total_dynamic_influence; linarith
    refine ⟨?_, ?_, ?_, ?_, by omega⟩
    · apply le_pyRound
      push_cast
      have := div_nonneg hci (le_of_lt htpos)
      nlinarith
    · apply pyRound_le
      push_cast
      have hq : corrosion_influence c / total ≤ 1 := (div_le_one htpos).mpr hcle
      nlinarith
    · apply le_pyRound
      push_cast
      have := div_nonneg hri (le_of_lt htpos)
      nlinarith
    · apply pyRound_le
      push_cast
      have hq : rate_influence r / total ≤ 1 := (div_le_one htpos).mpr hrle
      nlinarith
  · -- fallback branch (45, 40) followed by the (vacuous) rescaling test
    omega
  · -- fallback branch (45, 40) kept as is
    norm_num

/-- C1: for every sensor reading and every classifier probability `p ≥ 0`
(every value a probability can take, and in fact any non-negative output),
the risk index returned by `calculate_aris_data` is an integer in
[0, 100]: the upper bound comes from the `min(100, _)` clamp and the lower
bound from the base score `round(p * 120) ≥ 0` together with every
heuristic augmentation term being non-negative. -/
theorem C1_risk_index_in_range
    (p vibration temp corrosion_score change_rate flow_rate lube_health stress_in rul_in : ℚ)
    (hp : 0 ≤ p) :
    0 ≤ (calculate_aris_data (.prob p) vibration temp corrosion_score change_rate
          flow_rate lube_health stress_in rul_in).1 ∧
    (calculate_aris_data (.prob p) vibration temp corrosion_score change_rate
          flow_rate lube_health stress_in rul_in).1 ≤ 100 := by
  simp only [calculate_aris_data]
  have hbase : (0 : ℤ) ≤ pyRound (p * 120) := pyRound_nonneg _ (by nlinarith)
  have hextra := extra_risk_points_nonneg vibration temp flow_rate lube_health stress_in rul_in
  have hq0 : (0 : ℚ) ≤ min 100 ((pyRound (p * 120) : ℚ)
      + extra_risk_points vibration temp flow_rate lube_health stress_in rul_in) := by
    apply le_min (by norm_num)
    have hb : (0 : ℚ) ≤ (pyRound (p * 120) : ℚ) := by exact_mod_cast hbase
    linarith
  have hqle : min 100 ((pyRound (p * 120) : ℚ)
      + extra_risk_points vibration temp flow_rate lube_health stress_in rul_in)
      ≤ ((100 : ℤ) : ℚ) := by
    push_cast
    exact min_le_left _ _
  exact ⟨int_trunc_nonneg _ hq0, int_trunc_le 100 _ hq0 hqle⟩

/-- Witness for C1 at the spec scenario reading with probability 0.1. -/
theorem C1_witness :
    (0 : ℚ) ≤ 1/10 ∧
    (0 ≤ (calculate_aris_data (.prob (1/10)) 7 55 (2/10) (15/100) 1 (8/10) (4/10) (7/10)).1 ∧
     (calculate_aris_data (.prob (1/10)) 7 55 (2/10) (15/100) 1 (8/10) (4/10) (7/10)).1 ≤ 100) :=
  ⟨by norm_num,
   C1_risk_index_in_range (1/10) 7 55 (2/10) (15/100) 1 (8/10) (4/10) (7/10) (by norm_num)⟩

/-- C3: with the reading fields in their documented ranges (vibration at
least 1, temperature at least 30, corrosion score at least 0.1, change
rate non-negative), the corrosion and rate shares and the mechanical
remainder share are each integers in [0, 100] and the three sum to at
most 100. -/
theorem C3_contribution_shares_invariant (vibration temp corrosion_score change_rate : ℚ)
    (hv : 1 ≤ vibration) (ht : 30 ≤ temp) (hc : 1/10 ≤ corrosion_score)
    (hr : 0 ≤ change_rate) :
    0 ≤ (contributions vibration temp corrosion_score change_rate).1 ∧
    (contributions vibration temp corrosion_score change_rate).1 ≤ 100 ∧
    0 ≤ (contributions vibration temp corrosion_score change_rate).2 ∧
    (contributions vibration temp corrosion_score change_rate).2 ≤ 100 ∧
    0 ≤ vib_temp_contrib (contributions vibration temp corrosion_score change_rate).1
          (contributions vibration temp corrosion_score change_rate).2 ∧
    vib_temp_contrib (contributions vibration temp corrosion_score change_rate).1
          (contributions vibration temp corrosion_score change_rate).2 ≤ 100 ∧
    (contributions vibration temp corrosion_score change_rate).1
      + (contributions vibration temp corrosion_score change_rate).2
      + vib_temp_contrib (contributions vibration temp corrosion_score change_rate).1
          (contributions vibration temp corrosion_score change_rate).2 ≤ 100 := by
  obtain ⟨h1, h2, h3, h4, h5⟩ :=
    contributions_bounds vibration temp corrosion_score change_rate hv ht hc hr
  refine ⟨h1, h2, h3, h4, ?_, ?_, ?_⟩ <;>
    (simp only [vib_temp_contrib]; split_ifs <;> omega)

/-- Witness for C3 at the spec scenario reading. -/
theorem C3_witness :
    0 ≤ (contributions 7 55 (2/10) (15/100)).1 ∧
    (contributions 7 55 (2/10) (15/100)).1 ≤ 100 ∧
    0 ≤ (contributions 7 55 (2/10) (15/100)).2 ∧
    (contributions 7 55 (2/10) (15/100)).2 ≤ 100 ∧
    0 ≤ vib_temp_contrib (contributions 7 55 (2/10) (15/100)).1
          (contributions 7 55 (2/10) (15/100)).2 ∧
    vib_temp_contrib (contributions 7 55 (2/10) (15/100)).1
          (contributions 7 55 (2/10) (15/100)).2 ≤ 100 ∧
    (contributions 7 55 (2/10) (15/100)).1 + (contributions 7 55 (2/10) (15/100)).2
      + vib_temp_contrib (contributions 7 55 (2/10) (15/100)).1
          (contributions 7 55 (2/10) (15/100)).2 ≤ 100 :=
  C3_contribution_shares_invariant 7 55 (2/10) (15/100)
    (by norm_num) (by norm_num) (by norm_num) (by norm_num)

/-- C4: on a successful prediction with probability `p`, the base score is
`round(p * 120)` and the returned risk index is
`int(min(100, base_score + augmentation_points))`, with the augmentation
points produced by the heuristic augmenter. -/
theorem C4_risk_index_formula
    (p vibration temp corrosion_score change_rate flow_rate lube_health stress_in rul_in : ℚ) :
    (calculate_aris_data (.prob p) vibration temp corrosion_score change_rate
        flow_rate lube_health stress_in rul_in).1
      = int_trunc (min 100 ((pyRound (p * 120) : ℚ)
          + extra_risk_points vibration temp flow_rate lube_health stress_in rul_in)) := rfl

/-- C5: the heuristic augmentation equals exactly the sum of the six
piecewise-linear terms (temperature, vibration, two-sided flow,
lubrication, stress, remaining useful life), each contributing 0 when its
threshold condition does not hold. -/
theorem C5_augmentation_sum_of_terms
    (vibration temp flow_rate lube_health stress_in rul_in : ℚ) :
    extra_risk_points vibration temp flow_rate lube_health stress_in rul_in
      = temp_term temp + vib_term vibration + flow_term flow_rate
        + lube_term lube_health + stress_term stress_in + rul_term rul_in :=
  extra_risk_points_eq vibration temp flow_rate lube_health stress_in rul_in

/-- C2 (amended): when the classifier model is unavailable or the
prediction call raises, `calculate_aris_data` returns the plain triple
`(0, 0, 0)` (risk index 0 with zero contribution shares) and never raises;
the result carries no marker of unavailability. -/
theorem C2_degraded_returns_zero_triple :
    (∀ vibration temp corrosion_score change_rate flow_rate lube_health stress_in rul_in : ℚ,
      calculate_aris_data .unavailable vibration temp corrosion_score change_rate
        flow_rate lube_health stress_in rul_in = (0, 0, 0)) ∧
    (∀ vibration temp corrosion_score change_rate flow_rate lube_health stress_in rul_in : ℚ,
      calculate_aris_data .raises vibration temp corrosion_score change_rate
        flow_rate lube_health stress_in rul_in = (0, 0, 0)) :=
  ⟨fun _ _ _ _ _ _ _ _ => rfl, fun _ _ _ _ _ _ _ _ => rfl⟩

/-- C2 counterexample: the degraded result is not distinguishable in the
output type from a genuinely computed low-risk result — with the model
unavailable the engine returns exactly the same triple `(0, 0, 0)` that a
successful assessment produces at probability 0 for the concrete reading
(vibration 1, temperature 40, corrosion 0.1, change rate 0, flow 1,
lubrication 0.8, stress 0.4, RUL 0.7). -/
theorem C2_no_unavailable_marker_counterexample :
    calculate_aris_data .unavailable 1 40 (1/10) 0 1 (8/10) (4/10) (7/10)
      = calculate_aris_data (.prob 0) 1 40 (1/10) 0 1 (8/10) (4/10) (7/10) := by
  with_unfolding_all rfl

/-- C6: the tier mapping is total on [0, 100] and matches the fixed,
lower-bound-inclusive, gapless bands of the spec; the recommendation
branches of src/app.py lines 200-220 induce the same mapping as the
`delta_text` chain of lines 147-150; the boundary indices 20, 35, 50 and
80 map to Low, Medium, High and ImminentFailure respectively. -/
theorem C6_tier_bands :
    (∀ i : ℤ, 0 ≤ i → i ≤ 100 → tier_of_index i = spec_band_tier i) ∧
    (∀ i : ℤ, recommendation_tier i = tier_of_index i) ∧
    tier_of_index 20 = .low ∧ tier_of_index 35 = .medium ∧
    tier_of_index 50 = .high ∧ tier_of_index 80 = .imminentFailure := by
  refine ⟨?_, ?_, by decide, by decide, by decide, by decide⟩
  · intro i h0 h1
    unfold tier_of_index spec_band_tier
    split_ifs <;> first | rfl | omega
  · intro i
    unfold recommendation_tier tier_of_index
    split_ifs <;> first | rfl | omega

/-- Witness for C6 at index 25, inside the Low band. -/
theorem C6_witness : tier_of_index 25 = spec_band_tier 25 :=
  C6_tier_bands.1 25 (by decide) (by decide)

/-- C7: the dominant factor chosen by lines 234-239 of src/app.py is the
category with the strictly largest share among the corrosion share, the
mechanical remainder `max(0, 100 - corr - rate)` and the rate share, with
ties resolved in the fixed precedence order corrosion, then mechanical,
then rate. -/
theorem C7_dominant_cause_is_argmax (corr_contrib rate_contrib : ℤ) :
    dominant_cause corr_contrib rate_contrib
      = spec_dominant_cause corr_contrib
          (vib_temp_contrib corr_contrib rate_contrib) rate_contrib := by
  simp only [dominant_cause, spec_dominant_cause, vib_temp_contrib]
  split_ifs <;> first | rfl | omega

/-- C8: a subordinate alert is produced exactly when its threshold is
crossed (flow below 0.7 or above 1.1, lubrication below 0.4, stress above
0.6, RUL below 0.3 — the same constants as the heuristic augmenter), each
alert carries the triggering value, and when nothing is triggered the
output is the explicit no-concerns message rather than an empty list. -/
theorem C8_subordinate_alerts_iff (flow_rate lube_health stress_in rul_in : ℚ) :
    (Alert.lowFlow flow_rate ∈ subordinate_alerts flow_rate lube_health stress_in rul_in
      ↔ flow_rate < 7/10) ∧
    (Alert.highFlow flow_rate ∈ subordinate_alerts flow_rate lube_health stress_in rul_in
      ↔ flow_rate > 11/10) ∧
    (Alert.lowLube lube_health ∈ subordinate_alerts flow_rate lube_health stress_in rul_in
      ↔ lube_health < 4/10) ∧
    (Alert.highStress stress_in ∈ subordinate_alerts flow_rate lube_health stress_in rul_in
      ↔ stress_in > 6/10) ∧
    (Alert.lowRul rul_in ∈ subordinate_alerts flow_rate lube_health stress_in rul_in
      ↔ rul_in < 3/10) ∧
    (alert_report flow_rate lube_health stress_in rul_in = .noConcerns
      ↔ ¬(flow_rate < 7/10) ∧ ¬(flow_rate > 11/10) ∧ ¬(lube_health < 4/10)
        ∧ ¬(stress_in > 6/10) ∧ ¬(rul_in < 3/10)) := by
  simp only [alert_report, subordinate_alerts]
  split_ifs <;> simp_all

/-- C9: determinism — two invocations of `calculate_aris_data` with an
identical sensor reading and an identical classifier outcome return an
identical result (the engine uses no randomness and no hidden state). -/
theorem C9_deterministic (o₁ o₂ : ClassifierOutcome)
    (v₁ t₁ c₁ r₁ f₁ l₁ s₁ u₁ v₂ t₂ c₂ r₂ f₂ l₂ s₂ u₂ : ℚ)
    (ho : o₁ = o₂) (hv : v₁ = v₂) (ht : t₁ = t₂) (hc : c₁ = c₂) (hr : r₁ = r₂)
    (hf : f₁ = f₂) (hl : l₁ = l₂) (hs : s₁ = s₂) (hu : u₁ = u₂) :
    calculate_aris_data o₁ v₁ t₁ c₁ r₁ f₁ l₁ s₁ u₁
      = calculate_aris_data o₂ v₂ t₂ c₂ r₂ f₂ l₂ s₂ u₂ := by
  subst ho hv ht hc hr hf hl hs hu
  rfl

/-- Witness for C9 at the spec scenario reading with probability 0.1. -/
theorem C9_witness :
    calculate_aris_data (.prob (1/10)) 7 55 (2/10) (15/100) 1 (8/10) (4/10) (7/10)
      = calculate_aris_data (.prob (1/10)) 7 55 (2/10) (15/100) 1 (8/10) (4/10) (7/10) :=
  C9_deterministic (.prob (1/10)) (.prob (1/10)) 7 55 (2/10) (15/100) 1 (8/10) (4/10) (7/10)
    7 55 (2/10) (15/100) 1 (8/10) (4/10) (7/10)
    rfl rfl rfl rfl rfl rfl rfl rfl rfl

/-- C10: `calculate_aris_data` always terminates with a value; a raising
prediction call is converted to the `(0, 0, 0)` result; and both guarded
divisions of the share computation have non-zero denominators under their
guards (total dynamic influence above 0.01, total contribution above
100). -/
theorem C10_total_and_guarded_divisions :
    (∀ (outcome : ClassifierOutcome)
        (vibration temp corrosion_score change_rate flow_rate lube_health stress_in rul_in : ℚ),
      ∃ out : ℤ × ℤ × ℤ,
        calculate_aris_data outcome vibration temp corrosion_score change_rate
          flow_rate lube_health stress_in rul_in = out) ∧
    (∀ vibration temp corrosion_score change_rate flow_rate lube_health stress_in rul_in : ℚ,
      calculate_aris_data .raises vibration temp corrosion_score change_rate
        flow_rate lube_health stress_in rul_in = (0, 0, 0)) ∧
    (∀ vibration temp corrosion_score change_rate : ℚ,
      total_dynamic_influence vibration temp corrosion_score change_rate > 1/100 →
        total_dynamic_influence vibration temp corrosion_score change_rate ≠ 0) ∧
    (∀ total_contribution : ℤ, total_contribution > 100 →
        ((total_contribution : ℤ) : ℚ) ≠ 0) := by
  refine ⟨fun o v t c r f l s u => ⟨_, rfl⟩, fun _ _ _ _ _ _ _ _ => rfl, ?_, ?_⟩
  · intro v t c r h
    have hpos : (0 : ℚ) < total_dynamic_influence v t c r := lt_trans (by norm_num) h
    exact ne_of_gt hpos
  · intro tc h
    have hpos : (0 : ℚ) < ((tc : ℤ) : ℚ) := by
      have h0 : (0 : ℤ) < tc := by omega
      exact_mod_cast h0
    exact ne_of_gt hpos

/-- Witness for C10: the influence guard at the spec scenario reading and
the rescaling guard at total contribution 101. -/
theorem C10_witness :
    total_dynamic_influence 7 55 (2/10) (15/100) > 1/100 ∧
    total_dynamic_influence 7 55 (2/10) (15/100) ≠ 0 ∧
    ((101 : ℤ) : ℚ) ≠ 0 :=
  ⟨by norm_num [total_dynamic_influence, corrosion_influence, rate_influence,
      temp_vib_influence, temp_normalized, vib_normalized],
   C10_total_and_guarded_divisions.2.2.1 7 55 (2/10) (15/100)
     (by norm_num [total_dynamic_influence, corrosion_influence, rate_influence,
        temp_vib_influence, temp_normalized, vib_normalized]),
   C10_total_and_guarded_divisions.2.2.2 101 (by norm_num)⟩
